import Mathlib

/-!
Shallow embedding of the questdb-retention tool (src/main.rs) and proofs of
its specified properties.

Modelling conventions:
- Rust `i64` / `i32` amounts are Lean `Int` (range checks made explicit where
  the source performs them, namely in string parsing).
- `DateTime<Utc>` is modelled as a whole number of seconds since the Unix
  epoch (`Int`).  `chrono::Duration::days(n)` is exactly `n * 86400` seconds
  and `Duration::hours(n)` exactly `n * 3600` seconds, so subtraction of
  these durations is exact integer arithmetic.  The timestamps appearing in
  the claims are whole seconds, so sub-second precision is irrelevant here.
- `Utc::now()` is read inside `get_oldest_timestamp` in the source; it is
  modelled as an explicit `now` parameter supplied at each evaluation.
- Fallible Rust functions returning `Result` become `Except`; database
  calls are modelled by an environment of functions returning `Except`.
- A Rust `.unwrap()` on an `Err` value is a panic; panics are modelled by a
  distinguished outcome constructor.
-/

set_option autoImplicit false

deriving instance DecidableEq for Except

namespace QuestdbRetention

/-- The `PartitionBy` enum of the source: the partitioning granularity of a
table, one of None, Year, Month, Day, Hour. -/
inductive PartitionBy where
  | none
  | year
  | month
  | day
  | hour
  deriving DecidableEq

/-- The `RetentionPeriodError` enum of the source, with each variant carrying
the offending value exactly as in the Rust type. -/
inductive RetentionPeriodError where
  | invalidAmount (a : Int)
  | invalidPartitionBy (p : PartitionBy)
  | unsupportedPartitionBy (p : PartitionBy)
  | unknownPartitionBy (s : String)
  deriving DecidableEq

/-- The `RetentionPeriod` struct: a pair of an amount and a granularity. -/
structure RetentionPeriod where
  amount : Int
  partition_by : PartitionBy
  deriving DecidableEq

/-- `new_retention_period` from the source: rejects `PartitionBy::None`
first, then a non-positive amount, otherwise builds the period. -/
def new_retention_period (amount : Int) (partition_by : PartitionBy) :
    Except RetentionPeriodError RetentionPeriod :=
  if partition_by = PartitionBy.none then
    Except.error (RetentionPeriodError.invalidPartitionBy partition_by)
  else if amount ≤ 0 then
    Except.error (RetentionPeriodError.invalidAmount amount)
  else
    Except.ok ⟨amount, partition_by⟩

/-- The `Display` impl for `PartitionBy` in the source delegates to the
derived `Debug` formatting (`write!(f, "{:?}", self)`), which prints the
variant identifier as written in the Rust enum declaration. -/
def PartitionBy.display : PartitionBy → String
  | PartitionBy.none => "None"
  | PartitionBy.year => "Year"
  | PartitionBy.month => "Month"
  | PartitionBy.day => "Day"
  | PartitionBy.hour => "Hour"

/-- `PartitionBy::from_str` from the source: exact case-sensitive match on
the five catalog labels, any other input fails with `UnknownPartitionBy`
carrying the input. -/
def PartitionBy.from_str (input : String) : Except RetentionPeriodError PartitionBy :=
  if input = "NONE" then Except.ok PartitionBy.none
  else if input = "YEAR" then Except.ok PartitionBy.year
  else if input = "MONTH" then Except.ok PartitionBy.month
  else if input = "DAY" then Except.ok PartitionBy.day
  else if input = "HOUR" then Except.ok PartitionBy.hour
  else Except.error (RetentionPeriodError.unknownPartitionBy input)

/-- `get_oldest_timestamp` from the source.  In Rust the function reads
`Utc::now()` itself; the read of the clock at evaluation time is the `now`
argument here.  Day subtracts `Duration::days(amount)` = `amount * 86400`
seconds, Hour subtracts `Duration::hours(amount)` = `amount * 3600`
seconds; None and the remaining variants (Month, Year, via the catch-all
arm) fail with `UnsupportedPartitionBy`. -/
def get_oldest_timestamp (p : RetentionPeriod) (now : Int) :
    Except RetentionPeriodError Int :=
  match p.partition_by with
  | PartitionBy.day => Except.ok (now - p.amount * 86400)
  | PartitionBy.hour => Except.ok (now - p.amount * 3600)
  | PartitionBy.none =>
      Except.error (RetentionPeriodError.unsupportedPartitionBy p.partition_by)
  | _ => Except.error (RetentionPeriodError.unsupportedPartitionBy p.partition_by)

/-! Proleptic-Gregorian calendar arithmetic, used only to express concrete
UTC instants from the claims as epoch-second values and to model the
rendering that `chrono` performs when a `DateTime<Utc>` is displayed.  The
algorithms are the standard civil-from-days / days-from-civil computations;
all inputs of interest lie after 1970 so every quantity below is
non-negative. -/

/-- Days since 1970-01-01 of the civil date `(y, m, d)`. -/
def daysFromCivil (y m d : Int) : Int :=
  let y' := if m ≤ 2 then y - 1 else y
  let era := y' / 400
  let yoe := y' - era * 400
  let mp := if m > 2 then m - 3 else m + 9
  let doy := (153 * mp + 2) / 5 + d - 1
  let doe := yoe * 365 + yoe / 4 - yoe / 100 + doy
  era * 146097 + doe - 719468

/-- Epoch seconds of the UTC instant `y-m-d hh:mi:ss`. -/
def utc (y m d hh mi ss : Int) : Int :=
  daysFromCivil y m d * 86400 + hh * 3600 + mi * 60 + ss

/-- Civil date `(y, m, d)` of the day that is `z` days after 1970-01-01. -/
def civilFromDays (z : Int) : Int × Int × Int :=
  let z' := z + 719468
  let era := z' / 146097
  let doe := z' - era * 146097
  let yoe := (doe - doe / 1460 + doe / 36524 - doe / 146096) / 365
  let y := yoe + era * 400
  let doy := doe - (365 * yoe + yoe / 4 - yoe / 100)
  let mp := (5 * doy + 2) / 153
  let d := doy - (153 * mp + 2) / 5 + 1
  let m := if mp < 10 then mp + 3 else mp - 9
  (if m ≤ 2 then y + 1 else y, m, d)

/-- Two ASCII digits, zero padded (for months, days, hours, minutes,
seconds). -/
def pad2 (n : Nat) : String :=
  String.mk [Char.ofNat (48 + n / 10 % 10), Char.ofNat (48 + n % 10)]

/-- Four ASCII digits, zero padded (for years in the range of interest). -/
def pad4 (n : Nat) : String :=
  String.mk [Char.ofNat (48 + n / 1000 % 10), Char.ofNat (48 + n / 100 % 10),
    Char.ofNat (48 + n / 10 % 10), Char.ofNat (48 + n % 10)]

/-- How `chrono` renders a `DateTime<Utc>` through `Display` (`"{}"` in
`format!`): the naive date-time followed by the offset name, i.e.
`yyyy-mm-dd hh:mm:ss UTC` for a whole-second instant (the fractional part
is printed only when the sub-second field is non-zero, and every instant in
the claims is a whole second). -/
def chrono_display (secs : Int) : String :=
  let days := secs / 86400
  let rem := (secs % 86400).toNat
  let ymd := civilFromDays days
  pad4 ymd.1.toNat ++ "-" ++ pad2 ymd.2.1.toNat ++ "-" ++ pad2 ymd.2.2.toNat ++ " " ++
    pad2 (rem / 3600) ++ ":" ++ pad2 (rem / 60 % 60) ++ ":" ++ pad2 (rem % 60) ++ " UTC"

/-- A row of the `tables()` catalog query, carrying the two columns the
program reads from it: `name` and `partitionBy`. -/
structure CatalogRow where
  name : String
  partitionByLabel : String
  deriving DecidableEq

/-- The `Table` struct of the source. -/
structure Table where
  name : String
  partition_by : PartitionBy
  deriving DecidableEq

/-- `row_to_table` from the source: parse the `partitionBy` column, pair it
with the `name` column. -/
def row_to_table (r : CatalogRow) : Except RetentionPeriodError Table :=
  match PartitionBy.from_str r.partitionByLabel with
  | Except.ok p => Except.ok ⟨r.name, p⟩
  | Except.error e => Except.error e

/-- The database, seen through the three queries the program issues:
`SELECT * FROM tables() WHERE name=$1` (one row or an error),
`SELECT designatedTimestamp FROM tables() WHERE name=...`
(`get_timestamp_col`), and `client.execute` of a statement (affected-row
count or an error).  Database errors are their display strings. -/
structure DbEnv where
  lookupRow : String → Except String CatalogRow
  timestampCol : String → Except String String
  execute : String → Except String Nat

/-- The error type of `run` in the source (`Box<dyn Error>`): either a
database error or a `RetentionPeriodError`, each converted by `?`. -/
inductive RunError where
  | dbError (e : String)
  | retentionError (e : RetentionPeriodError)
  deriving DecidableEq

/-- The single-quote character, as a string. -/
def squote : String := String.mk [Char.ofNat 39]

/-- The `ALTER TABLE ... DROP PARTITION` statement exactly as the `format!`
call in `run` builds it: the timestamp placeholder is filled with the
`Display` rendering of the `DateTime<Utc>` value, while the format pattern
handed to `to_timestamp` is the fixed string `yyyy-MM-dd:HH:mm:ss`. -/
def run_query (table timestamp_col : String) (timestamp : Int) : String :=
  "ALTER TABLE " ++ table ++ " DROP PARTITION WHERE " ++ timestamp_col ++
    " < to_timestamp(" ++ squote ++ chrono_display timestamp ++ squote ++ ", " ++
    squote ++ "yyyy-MM-dd:HH:mm:ss" ++ squote ++ ")"

/-- `run` from the source: resolve the designated timestamp column, compute
the cutoff, submit the drop statement; every failure propagates via `?`. -/
def run (env : DbEnv) (now : Int) (table : String) (p : RetentionPeriod) :
    Except RunError Nat :=
  match env.timestampCol table with
  | Except.error e => Except.error (RunError.dbError e)
  | Except.ok timestamp_col =>
    match get_oldest_timestamp p now with
    | Except.error e => Except.error (RunError.retentionError e)
    | Except.ok timestamp =>
      match env.execute (run_query table timestamp_col timestamp) with
      | Except.error e => Except.error (RunError.dbError e)
      | Except.ok n => Except.ok n

/-! Batch mode.  `main` iterates the keys of the configured
`tables: HashMap<String, i64>`; the map is modelled as an association list
whose keys are distinct (a `HashMap` invariant), and iteration order as the
list order (the spec makes order non-contractual).  Each loop iteration
prints exactly one line; the printed alternatives are the `BatchOutcome`
constructors.  The `tables.get(&t.name).unwrap()` in the loop body panics
when the row name is absent from the map; that panic aborts the whole
process, which the fold below models by cutting the run short. -/

/-- The one-line outcome the batch loop prints for a table. -/
inductive BatchOutcome where
  | rowsDeleted (n : Nat)
  | retentionError (e : RetentionPeriodError)
  | runError (e : RunError)
  | queryError (e : String)
  | panicked
  deriving DecidableEq

/-- `HashMap::get` on the configured table map. -/
def lookupAmount (tables : List (String × Int)) (k : String) : Option Int :=
  (tables.find? (fun ta => ta.1 = k)).map Prod.snd

/-- One iteration of the batch loop in `main`: catalog lookup, row
translation, amount lookup by the row name (`.unwrap()`), policy
validation, then `run`; each `Err` arm prints and yields that branch
outcome. -/
def process_table (env : DbEnv) (now : Int) (tables : List (String × Int))
    (t : String) : BatchOutcome :=
  match env.lookupRow t with
  | Except.error e => BatchOutcome.queryError e
  | Except.ok r =>
    match row_to_table r with
    | Except.error e => BatchOutcome.retentionError e
    | Except.ok tbl =>
      match lookupAmount tables tbl.name with
      | Option.none => BatchOutcome.panicked
      | Option.some amount =>
        match new_retention_period amount tbl.partition_by with
        | Except.error e => BatchOutcome.retentionError e
        | Except.ok p =>
          match run env now tbl.name p with
          | Except.ok n => BatchOutcome.rowsDeleted n
          | Except.error e => BatchOutcome.runError e

/-- The batch loop over a list of keys: one outcome per key, except that a
panic inside an iteration aborts the remainder of the run. -/
def batch_go (env : DbEnv) (now : Int) (tables : List (String × Int)) :
    List (String × Int) → List (String × BatchOutcome)
  | [] => []
  | ta :: rest =>
    if process_table env now tables ta.1 = BatchOutcome.panicked then
      [(ta.1, process_table env now tables ta.1)]
    else (ta.1, process_table env now tables ta.1) :: batch_go env now tables rest

/-- Batch mode of `main`: run the loop over every configured table. -/
def batch_run (env : DbEnv) (now : Int) (tables : List (String × Int)) :
    List (String × BatchOutcome) :=
  batch_go env now tables tables

/-! Interactive mode.  The session, after the operator has answered the
table prompt, walks every catalog row, and inside the matching row runs the
amount prompt and one execution; `exit` calls end the process, `.unwrap()`
on an `Err` panics.  The model returns the printed lines and how the
process ended. -/

/-- How the interactive process ends: an `exit(code)` call, or a panic from
an `.unwrap()` on an `Err` value. -/
inductive Termination where
  | exited (code : Nat)
  | panicked
  deriving DecidableEq

/-- The printed lines of an interactive session together with its
termination. -/
structure SessionResult where
  output : List String
  term : Termination
  deriving DecidableEq

/-- Parse a decimal integer the way Rust `str::parse` for a bounded signed
integer type does: an optional leading sign, then one or more ASCII digits,
failing exactly when the digits are absent, a non-digit appears, or the
value falls outside `[lo, hi]` (the checked accumulation of
`from_str_radix` fails precisely on values out of range). -/
def parseIntInRange (lo hi : Int) (s : String) : Option Int :=
  let cs := s.toList
  let signed : Bool × List Char :=
    match cs with
    | '+' :: rest => (false, rest)
    | '-' :: rest => (true, rest)
    | _ => (false, cs)
  if signed.2 = [] then Option.none
  else if signed.2.all Char.isDigit then
    let mag : Int := signed.2.foldl (fun acc c => acc * 10 + (Int.ofNat c.toNat - 48)) 0
    let v : Int := if signed.1 then -mag else mag
    if lo ≤ v ∧ v ≤ hi then Option.some v else Option.none
  else Option.none

/-- Rust `s.parse::<i32>()`. -/
def parse_i32 (s : String) : Option Int := parseIntInRange (-(2 ^ 31)) (2 ^ 31 - 1) s

/-- Rust `s.parse::<i64>()`. -/
def parse_i64 (s : String) : Option Int := parseIntInRange (-(2 ^ 63)) (2 ^ 63 - 1) s

/-- The validator closure attached to the interactive amount prompt:
accept exactly the strings `parse::<i32>` accepts. -/
def amount_validator (s : String) : Bool := (parse_i32 s).isSome

/-- The `Display` impl for `RetentionPeriodError` in the source. -/
def RetentionPeriodError.display : RetentionPeriodError → String
  | RetentionPeriodError.unsupportedPartitionBy x =>
      "unsupported PartitionBy " ++ x.display
  | RetentionPeriodError.invalidPartitionBy x => "invalid PartitionBy " ++ x.display
  | RetentionPeriodError.invalidAmount x => "invalid Amount " ++ toString x
  | RetentionPeriodError.unknownPartitionBy x =>
      "unknown PartitionBy value: " ++ squote ++ x ++ squote

/-- Display of the boxed error `run` returns (`"{}"` on `Box<dyn Error>`
shows the display of the underlying error). -/
def RunError.display : RunError → String
  | RunError.dbError e => e
  | RunError.retentionError e => e.display

/-- The interactive `for row in ...` loop from `main`, entered after the
operator answered the table prompt with `t`.  `answer` is what the amount
prompt returns in the matching row (`Option.none` models `Ok(None)`: the
operator typed nothing).  Each arm mirrors one branch of the source:
non-matching rows are skipped; a matching row with granularity `None`
prints and exits; a successful `run` prints its two lines and lets the
loop continue, so control falls through to the `table not found` line; a
failed `run` prints the error and exits 1; the `.unwrap()` calls on
`row_to_table`, `parse::<i64>` and `new_retention_period` panic on an
`Err` value. -/
def interactive_loop (env : DbEnv) (now : Int) (t : String) (answer : Option String) :
    List CatalogRow → SessionResult
  | [] => ⟨["table not found " ++ squote ++ t ++ squote], Termination.exited 1⟩
  | r :: rest =>
    if r.name = t then
      match row_to_table r with
      | Except.error _ => ⟨[], Termination.panicked⟩
      | Except.ok table =>
        if table.partition_by = PartitionBy.none then
          ⟨["table " ++ t ++ " partitionBy == NONE, cannot evaluation retention"],
            Termination.exited 1⟩
        else
          match answer with
          | Option.none => ⟨["You typed nothing"], Termination.exited 1⟩
          | Option.some a =>
            match parse_i64 a with
            | Option.none => ⟨[], Termination.panicked⟩
            | Option.some av =>
              match new_retention_period av table.partition_by with
              | Except.error _ => ⟨[], Termination.panicked⟩
              | Except.ok p =>
                match run env now table.name p with
                | Except.ok d =>
                  let res := interactive_loop env now t answer rest
                  ⟨"Deleting old partitions..." ::
                    ("deleted " ++ toString d ++ " rows") :: res.output, res.term⟩
                | Except.error e =>
                  ⟨["Deleting old partitions...", "error: " ++ e.display],
                    Termination.exited 1⟩
    else interactive_loop env now t answer rest

/-- An interactive session over the catalog rows returned by `tables()`,
given the table choice and amount answer of the operator. -/
def interactive_session (env : DbEnv) (now : Int) (rows : List CatalogRow)
    (t : String) (answer : Option String) : SessionResult :=
  interactive_loop env now t answer rows

/-! Claim theorems. -/

/-- C1: for every positive amount, the cutoff computation on a policy with
granularity Day returns now minus exactly amount 24-hour days (amount·86400
seconds) and with granularity Hour returns now minus exactly amount hours
(amount·3600 seconds), `now` being the clock value read at evaluation time;
the arithmetic is fixed-duration, not calendar-aware: amount = 1 at
now = 2024-03-01T00:00:00Z yields 2024-02-29T00:00:00Z. -/
theorem C1_cutoff_fixed_duration (amount now : Int) (h : 0 < amount) :
    get_oldest_timestamp ⟨amount, PartitionBy.day⟩ now =
      Except.ok (now - amount * 86400) ∧
    get_oldest_timestamp ⟨amount, PartitionBy.hour⟩ now =
      Except.ok (now - amount * 3600) ∧
    get_oldest_timestamp ⟨1, PartitionBy.day⟩ (utc 2024 3 1 0 0 0) =
      Except.ok (utc 2024 2 29 0 0 0) :=
  ⟨rfl, rfl, by decide⟩

/-- Witness for C1 at amount = 1, now = 0. -/
theorem C1_cutoff_fixed_duration_witness :
    get_oldest_timestamp ⟨1, PartitionBy.day⟩ 0 = Except.ok (0 - 1 * 86400) ∧
    get_oldest_timestamp ⟨1, PartitionBy.hour⟩ 0 = Except.ok (0 - 1 * 3600) ∧
    get_oldest_timestamp ⟨1, PartitionBy.day⟩ (utc 2024 3 1 0 0 0) =
      Except.ok (utc 2024 2 29 0 0 0) :=
  C1_cutoff_fixed_duration 1 0 (by decide)

/-- C2: for every policy whose granularity is Month or Year, the cutoff
computation fails with `UnsupportedPartitionBy` carrying that granularity,
independent of the amount (and of the clock); it never returns a
timestamp for these granularities. -/
theorem C2_month_year_unsupported (amount now : Int) :
    get_oldest_timestamp ⟨amount, PartitionBy.month⟩ now =
      Except.error (RetentionPeriodError.unsupportedPartitionBy PartitionBy.month) ∧
    get_oldest_timestamp ⟨amount, PartitionBy.year⟩ now =
      Except.error (RetentionPeriodError.unsupportedPartitionBy PartitionBy.year) :=
  ⟨rfl, rfl⟩

/-- C3: for every amount > 0, validation with granularity None fails with
`InvalidPartitionBy`, and validation with each of Hour, Day, Month, Year
succeeds, yielding a period whose fields equal the inputs. -/
theorem C3_validate_positive_amount (amount : Int) (h : 0 < amount) :
    new_retention_period amount PartitionBy.none =
      Except.error (RetentionPeriodError.invalidPartitionBy PartitionBy.none) ∧
    new_retention_period amount PartitionBy.hour =
      Except.ok ⟨amount, PartitionBy.hour⟩ ∧
    new_retention_period amount PartitionBy.day =
      Except.ok ⟨amount, PartitionBy.day⟩ ∧
    new_retention_period amount PartitionBy.month =
      Except.ok ⟨amount, PartitionBy.month⟩ ∧
    new_retention_period amount PartitionBy.year =
      Except.ok ⟨amount, PartitionBy.year⟩ := by
  have hna : ¬amount ≤ 0 := not_le.mpr h
  exact ⟨rfl, by simp [new_retention_period, hna], by simp [new_retention_period, hna],
    by simp [new_retention_period, hna], by simp [new_retention_period, hna]⟩

/-- Witness for C3 at amount = 1. -/
theorem C3_validate_positive_amount_witness :
    new_retention_period 1 PartitionBy.none =
      Except.error (RetentionPeriodError.invalidPartitionBy PartitionBy.none) ∧
    new_retention_period 1 PartitionBy.hour = Except.ok ⟨1, PartitionBy.hour⟩ ∧
    new_retention_period 1 PartitionBy.day = Except.ok ⟨1, PartitionBy.day⟩ ∧
    new_retention_period 1 PartitionBy.month = Except.ok ⟨1, PartitionBy.month⟩ ∧
    new_retention_period 1 PartitionBy.year = Except.ok ⟨1, PartitionBy.year⟩ :=
  C3_validate_positive_amount 1 (by decide)

/-- C4 counterexample: at amount = −1 and granularity None, validation does
not fail with `InvalidAmount(−1)`; it fails with `InvalidPartitionBy(None)`,
because the granularity check precedes the amount check. -/
theorem C4_counterexample :
    new_retention_period (-1) PartitionBy.none ≠
      Except.error (RetentionPeriodError.invalidAmount (-1)) ∧
    new_retention_period (-1) PartitionBy.none =
      Except.error (RetentionPeriodError.invalidPartitionBy PartitionBy.none) := by
  decide

/-- C4 amended: for every amount ≤ 0 and every granularity other than None,
validation fails with `InvalidAmount` carrying the offending amount; with
granularity None it fails with `InvalidPartitionBy(None)` instead, since the
granularity check comes first. -/
theorem C4_nonpositive_amount (amount : Int) (h : amount ≤ 0) :
    (∀ g, g ≠ PartitionBy.none →
      new_retention_period amount g =
        Except.error (RetentionPeriodError.invalidAmount amount)) ∧
    new_retention_period amount PartitionBy.none =
      Except.error (RetentionPeriodError.invalidPartitionBy PartitionBy.none) := by
  refine ⟨fun g hg => ?_, rfl⟩
  simp [new_retention_period, hg, h]

/-- Witness for the amended C4 at amount = 0, granularity Day. -/
theorem C4_nonpositive_amount_witness :
    new_retention_period 0 PartitionBy.day =
      Except.error (RetentionPeriodError.invalidAmount 0) :=
  (C4_nonpositive_amount 0 (by decide)).1 PartitionBy.day (by decide)

/-- C5 counterexample: parsing "NONE" succeeds, but formatting the parsed
granularity returns "None", not the original string "NONE", so the claimed
round trip format(parse(s)) = s fails. -/
theorem C5_counterexample :
    PartitionBy.from_str "NONE" = Except.ok PartitionBy.none ∧
    PartitionBy.display PartitionBy.none = "None" ∧
    PartitionBy.display PartitionBy.none ≠ "NONE" := by
  decide

/-- C5 amended: each of the five catalog strings parses successfully, but
formatting the parsed granularity returns the capitalised debug form of the
variant name ("None", "Year", "Month", "Day", "Hour"), not the original
upper-case string; every string other than the five fails to parse with
`UnknownPartitionBy` carrying that string. -/
theorem C5_parse_format (s : String) :
    (PartitionBy.from_str "NONE" = Except.ok PartitionBy.none ∧
      PartitionBy.display PartitionBy.none = "None") ∧
    (PartitionBy.from_str "YEAR" = Except.ok PartitionBy.year ∧
      PartitionBy.display PartitionBy.year = "Year") ∧
    (PartitionBy.from_str "MONTH" = Except.ok PartitionBy.month ∧
      PartitionBy.display PartitionBy.month = "Month") ∧
    (PartitionBy.from_str "DAY" = Except.ok PartitionBy.day ∧
      PartitionBy.display PartitionBy.day = "Day") ∧
    (PartitionBy.from_str "HOUR" = Except.ok PartitionBy.hour ∧
      PartitionBy.display PartitionBy.hour = "Hour") ∧
    (s ≠ "NONE" → s ≠ "YEAR" → s ≠ "MONTH" → s ≠ "DAY" → s ≠ "HOUR" →
      PartitionBy.from_str s =
        Except.error (RetentionPeriodError.unknownPartitionBy s)) := by
  refine ⟨by decide, by decide, by decide, by decide, by decide, ?_⟩
  intro h1 h2 h3 h4 h5
  simp [PartitionBy.from_str, h1, h2, h3, h4, h5]

/-- Witness for the amended C5 at the non-vocabulary string "day". -/
theorem C5_parse_format_witness :
    PartitionBy.from_str "day" =
      Except.error (RetentionPeriodError.unknownPartitionBy "day") :=
  (C5_parse_format "day").2.2.2.2.2 (by decide) (by decide) (by decide)
    (by decide) (by decide)

/-- C7: the claimed scenario — table `trades`, granularity Day, amount 7,
now = 2024-06-10T00:00:00Z — computes the cutoff 2024-06-03T00:00:00Z, but
the statement the executor builds fills the timestamp slot with the
`Display` rendering "2024-06-03 00:00:00 UTC" while handing `to_timestamp`
the pattern `yyyy-MM-dd:HH:mm:ss`, so the statement does not target the
claimed string "2024-06-03:00:00:00": the rendered value does not match the
format pattern the statement itself declares. -/
theorem C7_statement_timestamp_format :
    get_oldest_timestamp ⟨7, PartitionBy.day⟩ (utc 2024 6 10 0 0 0) =
      Except.ok (utc 2024 6 3 0 0 0) ∧
    chrono_display (utc 2024 6 3 0 0 0) = "2024-06-03 00:00:00 UTC" ∧
    run_query "trades" "ts" (utc 2024 6 3 0 0 0) =
      "ALTER TABLE trades DROP PARTITION WHERE ts < to_timestamp(" ++ squote ++
        "2024-06-03 00:00:00 UTC" ++ squote ++ ", " ++ squote ++
        "yyyy-MM-dd:HH:mm:ss" ++ squote ++ ")" ∧
    chrono_display (utc 2024 6 3 0 0 0) ≠ "2024-06-03:00:00:00" := by
  exact ⟨by decide, by decide, by decide, by decide⟩

/-- A catalog holding the single day-partitioned table `trades`. -/
def tradesCatalog : List CatalogRow := [⟨"trades", "DAY"⟩]

/-- A database whose designated timestamp column lookup returns `ts` and
whose statement execution succeeds, reporting 3 affected rows. -/
def okEnv : DbEnv where
  lookupRow := fun _ => Except.error "unused in interactive mode"
  timestampCol := fun _ => Except.ok "ts"
  execute := fun _ => Except.ok 3

/-- C8: in the interactive session on the single-table catalog where every
step succeeds, the session does not terminate by reporting only its single
result: after printing the success line it falls out of the row loop,
additionally prints `table not found` for the table it just processed, and
exits with code 1. -/
theorem C8_success_then_table_not_found :
    interactive_session okEnv 0 tradesCatalog "trades" (Option.some "7") =
      ⟨["Deleting old partitions...", "deleted 3 rows",
        "table not found " ++ squote ++ "trades" ++ squote],
        Termination.exited 1⟩ := by
  decide

/-- C9: the amount prompt validator accepts the numeric non-positive input
"-5"; validation then returns `InvalidAmount(−5)`, and the session panics
on the `.unwrap()` of that `Err` value instead of terminating through a
handled error branch. -/
theorem C9_nonpositive_amount_panics :
    amount_validator "-5" = true ∧
    new_retention_period (-5) PartitionBy.day =
      Except.error (RetentionPeriodError.invalidAmount (-5)) ∧
    interactive_session okEnv 0 tradesCatalog "trades" (Option.some "-5") =
      ⟨[], Termination.panicked⟩ := by
  decide

/-- C10: the interactive amount prompt validator accepts exactly the
strings that parse as a 32-bit signed integer, so the positive amount
2147483648 (which exceeds the i32 range but parses as the i64 the policy
amount field holds) is rejected at the prompt, while 2147483647 is
accepted. -/
theorem C10_validator_is_i32_parse :
    (∀ s, amount_validator s = true ↔ ∃ v, parse_i32 s = Option.some v) ∧
    amount_validator "2147483648" = false ∧
    amount_validator "2147483647" = true ∧
    parse_i64 "2147483648" = Option.some 2147483648 := by
  refine ⟨fun s => ?_, by decide, by decide, by decide⟩
  simp [amount_validator, Option.isSome_iff_exists]

/-! Supporting lemmas for the batch-mode claim. -/

/-- `run` reads only the timestamp-column and execute channels of the
database, so two environments agreeing on those run identically. -/
theorem run_congr (env env2 : DbEnv) (now : Int) (table : String)
    (p : RetentionPeriod) (hcol : env2.timestampCol = env.timestampCol)
    (hexec : env2.execute = env.execute) :
    run env2 now table p = run env now table p := by
  unfold run
  rw [hcol, hexec]

/-- The batch outcome of a table depends on the database only through the three
channels evaluated for that table: environments agreeing on its catalog
lookup and on the timestamp-column and execute channels give it the same
outcome. -/
theorem process_table_congr (env env2 : DbEnv) (now : Int)
    (tables : List (String × Int)) (u : String)
    (hrow : env2.lookupRow u = env.lookupRow u)
    (hcol : env2.timestampCol = env.timestampCol)
    (hexec : env2.execute = env.execute) :
    process_table env2 now tables u = process_table env now tables u := by
  have hrun : run env2 = run env := by
    funext now' tb p
    exact run_congr env env2 now' tb p hcol hexec
  unfold process_table
  rw [hrow, hrun]

/-- A key present in the configured map has an amount. -/
theorem lookupAmount_isSome {tables : List (String × Int)} {t : String}
    (ht : t ∈ tables.map Prod.fst) :
    ∃ v, lookupAmount tables t = Option.some v := by
  induction tables with
  | nil => simp at ht
  | cons ta rest ih =>
    by_cases h : ta.1 = t
    · exact ⟨ta.2, by simp [lookupAmount, List.find?_cons, h]⟩
    · have ht' : t ∈ rest.map Prod.fst := by
        rcases List.mem_cons.mp ht with h1 | h1
        · exact absurd h1.symm h
        · exact h1
      obtain ⟨v, hv⟩ := ih ht'
      refine ⟨v, ?_⟩
      simpa [lookupAmount, List.find?_cons, h] using hv

/-- `row_to_table` keeps the row name. -/
theorem row_to_table_name {r : CatalogRow} {tbl : Table}
    (h : row_to_table r = Except.ok tbl) : tbl.name = r.name := by
  unfold row_to_table at h
  cases hp : PartitionBy.from_str r.partitionByLabel with
  | ok p => rw [hp] at h; cases h; rfl
  | error e => rw [hp] at h; cases h

/-- When the catalog returns rows named by the key they were looked up
with (the guarantee of the `WHERE name=$1` query) and the key is a
configured table, the amount lookup `.unwrap()` cannot panic. -/
theorem process_table_ne_panicked (env : DbEnv) (now : Int)
    (tables : List (String × Int)) (t : String)
    (hwf : ∀ u r, env.lookupRow u = Except.ok r → r.name = u)
    (ht : t ∈ tables.map Prod.fst) :
    process_table env now tables t ≠ BatchOutcome.panicked := by
  rcases hr : env.lookupRow t with e | r
  · unfold process_table
    simp [hr]
  · rcases hrt : row_to_table r with e | tbl
    · unfold process_table
      simp [hr, hrt]
    · have hname : tbl.name = t := by rw [row_to_table_name hrt, hwf t r hr]
      obtain ⟨v, hv⟩ := lookupAmount_isSome ht
      unfold process_table
      simp only [hr, hrt, hname, hv]
      rcases new_retention_period v tbl.partition_by with e | p
      · simp
      · rcases hrun : run env now t p with e | n <;> simp [hrun]

/-- When no iteration panics, the batch loop is exactly one outcome per
requested key, in order. -/
theorem batch_go_eq_map (env : DbEnv) (now : Int)
    (tables : List (String × Int)) :
    ∀ l : List (String × Int),
      (∀ ta ∈ l, process_table env now tables ta.1 ≠ BatchOutcome.panicked) →
      batch_go env now tables l =
        l.map (fun ta => (ta.1, process_table env now tables ta.1)) := by
  intro l
  induction l with
  | nil => intro _; rfl
  | cons ta rest ih =>
    intro h
    have h1 := h ta (List.mem_cons_self ta rest)
    simp only [batch_go, if_neg h1, List.map_cons]
    exact congrArg (List.cons _) (ih (fun x hx => h x (List.mem_cons_of_mem ta hx)))

/-- C6: when the catalog names rows by the key they are looked up with
(the `WHERE name=$1` guarantee) and the configured keys are distinct (a
`HashMap` invariant), a batch run produces exactly one outcome per
requested table, in iteration order, with no duplicates; and for any two
databases that differ at most in the catalog lookup of one table `t` —
e.g. the lookup fails in one of them — the outcome of every other table is
computed identically, so a failure at any per-table step is recorded for
that table only while every other table still reaches its normal
outcome. -/
theorem C6_batch_isolation (env env2 : DbEnv) (now : Int)
    (tables : List (String × Int)) (t : String)
    (hwf : ∀ u r, env.lookupRow u = Except.ok r → r.name = u)
    (hwf2 : ∀ u r, env2.lookupRow u = Except.ok r → r.name = u)
    (hnd : (tables.map Prod.fst).Nodup)
    (hagree : ∀ u, u ≠ t → env2.lookupRow u = env.lookupRow u)
    (hcol : env2.timestampCol = env.timestampCol)
    (hexec : env2.execute = env.execute) :
    (batch_run env now tables).map Prod.fst = tables.map Prod.fst ∧
    ((batch_run env now tables).map Prod.fst).Nodup ∧
    (batch_run env2 now tables).map Prod.fst = tables.map Prod.fst ∧
    ∀ u, u ≠ t → process_table env2 now tables u = process_table env now tables u := by
  have hnp : ∀ e : DbEnv, (∀ u r, e.lookupRow u = Except.ok r → r.name = u) →
      ∀ ta ∈ tables, process_table e now tables ta.1 ≠ BatchOutcome.panicked :=
    fun e hw ta hta =>
      process_table_ne_panicked e now tables ta.1 hw (List.mem_map_of_mem Prod.fst hta)
  have hm1 := batch_go_eq_map env now tables tables (hnp env hwf)
  have hm2 := batch_go_eq_map env2 now tables tables (hnp env2 hwf2)
  have hkeys1 : (batch_run env now tables).map Prod.fst = tables.map Prod.fst := by
    rw [batch_run, hm1, List.map_map]
    rfl
  have hkeys2 : (batch_run env2 now tables).map Prod.fst = tables.map Prod.fst := by
    rw [batch_run, hm2, List.map_map]
    rfl
  refine ⟨hkeys1, ?_, hkeys2, ?_⟩
  · rw [hkeys1]
    exact hnd
  · intro u hu
    exact process_table_congr env env2 now tables u (hagree u hu) hcol hexec

/-- A three-table configuration, amounts 7, 7 and 24. -/
def wTables : List (String × Int) := [("a", 7), ("b", 7), ("c", 24)]

/-- A healthy database: every catalog lookup returns a row named by the
requested key, day-partitioned except table `c` which is hour-partitioned;
the timestamp column is always `ts` and every statement deletes 5 rows. -/
def wEnvA : DbEnv where
  lookupRow := fun u => Except.ok ⟨u, if u = "c" then "HOUR" else "DAY"⟩
  timestampCol := fun _ => Except.ok "ts"
  execute := fun _ => Except.ok 5

/-- The same database with the catalog lookup failing for table `b`
only. -/
def wEnvB : DbEnv where
  lookupRow := fun u =>
    if u = "b" then Except.error "table does not exist" else wEnvA.lookupRow u
  timestampCol := wEnvA.timestampCol
  execute := wEnvA.execute

/-- The healthy database names rows by the requested key. -/
theorem wEnvA_wf : ∀ u r, wEnvA.lookupRow u = Except.ok r → r.name = u := by
  intro u r h
  simp only [wEnvA] at h
  injection h with h2
  rw [← h2]

/-- The database failing at `b` also names rows by the requested key. -/
theorem wEnvB_wf : ∀ u r, wEnvB.lookupRow u = Except.ok r → r.name = u := by
  intro u r h
  by_cases hb : u = "b"
  · subst hb
    simp [wEnvB] at h
  · simp only [wEnvB, if_neg hb] at h
    exact wEnvA_wf u r h

/-- Witness for C6: on the three-table configuration, both the healthy
database and the one whose lookup fails for `b` yield one outcome per
requested table, and table `a` gets the same outcome in both. -/
theorem C6_batch_isolation_witness :
    (batch_run wEnvA 0 wTables).map Prod.fst = wTables.map Prod.fst ∧
    ((batch_run wEnvA 0 wTables).map Prod.fst).Nodup ∧
    (batch_run wEnvB 0 wTables).map Prod.fst = wTables.map Prod.fst ∧
    process_table wEnvB 0 wTables "a" = process_table wEnvA 0 wTables "a" := by
  have h := C6_batch_isolation wEnvA wEnvB 0 wTables "b" wEnvA_wf wEnvB_wf
    (by decide) (fun u hu => by simp [wEnvB, hu]) rfl rfl
  exact ⟨h.1, h.2.1, h.2.2.1, h.2.2.2 "a" (by decide)⟩

end QuestdbRetention
